import Mathlib

/-!
Shallow embedding of the authentication backend of `ankman007/job-prep-ai`
(files `src/backend/app/routes/auth.py`, `src/backend/app/core/config.py`,
`src/backend/app/db/session.py`), together with proofs of the specified
properties of token issuance and verification, login, signup and database
session scoping.

Time is modelled as a `Nat` count of seconds since the epoch;
`timedelta(minutes = m)` is `m * 60` seconds.
-/

set_option autoImplicit false

/-- A value stored in a JWT claims dictionary: either a string claim
(such as `sub`) or an absolute timestamp (such as `exp`, which
`python-jose` serializes from a `datetime`). -/
inductive ClaimVal where
  | str (s : String)
  | time (t : Nat)
  deriving DecidableEq, BEq

/-- A Python `dict` of claims, keys to values.  Keys are unique in an
actual Python dict; lookup returns the first binding. -/
abbrev Dict := List (String × ClaimVal)

/-- `d.get(k)`: first binding of `k`, or `None`. -/
def Dict.get : Dict → String → Option ClaimVal
  | [], _ => none
  | (k', v') :: rest, k => if k' = k then some v' else Dict.get rest k

/-- `d.update({k: v})`: replace the binding of `k` in place if present,
otherwise append it (Python dicts keep insertion order). -/
def Dict.update : Dict → String → ClaimVal → Dict
  | [], k, v => [(k, v)]
  | (k', v') :: rest, k, v =>
      if k' = k then (k, v) :: rest else (k', v') :: Dict.update rest k v

/-- A JWT as produced by `python-jose`: either a well-formed token signed
with some key and algorithm, or an arbitrary string that does not decode. -/
inductive Token where
  | signed (payload : Dict) (key : String) (alg : String)
  | garbage (s : String)
  deriving DecidableEq, BEq

/-- The payload of a well-formed token. -/
def Token.payload : Token → Option Dict
  | .signed p _ _ => some p
  | .garbage _ => none

/-- The exceptions `python-jose` raises from `jwt.encode` / `jwt.decode`;
all of them are (subclasses of) `JWTError`. -/
inductive JWTError where
  /-- the string is not a decodable JWS -/
  | decodeError
  /-- signature verification against the supplied key failed -/
  | signatureError
  /-- the token's algorithm is not in the allowed list -/
  | algorithmError
  /-- `ExpiredSignatureError`: the `exp` claim is in the past -/
  | expiredSignature
  /-- `JWTClaimsError`: a registered claim has the wrong type -/
  | claimsError
  /-- `JWSError` from `jwt.encode` when the key or algorithm is `None` -/
  | joseKeyError
  deriving DecidableEq, BEq

namespace jwt

/-- `jose.jwt.encode(payload, key, algorithm=alg)` with both present:
produces a token signed with `key` and `alg`. -/
def encode (payload : Dict) (key alg : String) : Token :=
  .signed payload key alg

/-- `jose.jwt.decode(token, key, algorithms=[alg])` evaluated at instant
`now`.  A single decode step fails if the string does not decode, the
signature does not verify under `key`, the algorithm is not `alg`, the
`exp` claim (validated when present) is not a timestamp or lies strictly
in the past, or the `sub` claim (validated when present) is not a string.
On success it returns the claims dictionary. -/
def decode (t : Token) (key alg : String) (now : Nat) : Except JWTError Dict :=
  match t with
  | .garbage _ => .error .decodeError
  | .signed p k a =>
    if k ≠ key then .error .signatureError
    else if a ≠ alg then .error .algorithmError
    else
      match p.get "exp" with
      | some (.str _) => .error .claimsError
      | some (.time e) =>
        if e < now then .error .expiredSignature
        else
          match p.get "sub" with
          | some (.time _) => .error .claimsError
          | _ => .ok p
      | none =>
        match p.get "sub" with
        | some (.time _) => .error .claimsError
        | _ => .ok p

end jwt

/-- `auth.py`: `ACCESS_TOKEN_EXPIRE_MINUTES = 90`. -/
def ACCESS_TOKEN_EXPIRE_MINUTES : Nat := 90

/-- `auth.py` `create_token(data)`, evaluated at instant `now` with the
module-level key and algorithm present:
copies `data`, sets `exp` to `now + 90 minutes`, and signs. -/
def create_token (data : Dict) (now : Nat) (key alg : String) : Token :=
  let to_encode := data
  let expiry_date := now + ACCESS_TOKEN_EXPIRE_MINUTES * 60
  let to_encode := to_encode.update "exp" (.time expiry_date)
  jwt.encode to_encode key alg

/-- `create_token` as actually called with the module globals
`SECRET_KEY = getenv('SECRET_KEY')` and `ALGORITHM = getenv('ALGORITHM')`,
either of which may be `None`: `python-jose` raises a `JWSError` at call
time when the key or the algorithm is `None`. -/
def create_token_env (data : Dict) (now : Nat) (key alg : Option String) :
    Except JWTError Token :=
  match key, alg with
  | some k, some a => .ok (create_token data now k a)
  | _, _ => .error .joseKeyError

/-! ## Process startup configuration (`config.py`, module globals of `auth.py`) -/

/-- The process environment, as read by `os.getenv`. -/
abbrev Env := String → Option String

/-- The configuration held by the started process: `DATABASE_URL` from
`config.py` (validated), and the module globals of `auth.py`
(`SECRET_KEY`, `ALGORITHM`), read without validation and possibly `None`. -/
structure AppConfig where
  DATABASE_URL : String
  SECRET_KEY : Option String
  ALGORITHM : Option String
  deriving DecidableEq

/-- Module initialization of `config.py`: `load_dotenv()` has populated the
environment; `DATABASE_URL = os.getenv("DATABASE_URL")`, and
`if not DATABASE_URL: raise ValueError(...)` — which fires both when the
variable is unset (`None`) and when it is the empty string. -/
def config_startup (env : Env) : Except String String :=
  match env "DATABASE_URL" with
  | none => .error "DATABASE_URL is not set in environment variables."
  | some url =>
      if url = "" then .error "DATABASE_URL is not set in environment variables."
      else .ok url

/-- Process startup: importing the app runs `config.py` first (aborting on a
missing `DATABASE_URL`), then `auth.py`'s module level, which merely binds
`SECRET_KEY = getenv('SECRET_KEY')` and `ALGORITHM = getenv('ALGORITHM')`
with no check whatsoever. -/
def app_startup (env : Env) : Except String AppConfig :=
  match config_startup env with
  | .error e => .error e
  | .ok url => .ok ⟨url, env "SECRET_KEY", env "ALGORITHM"⟩

/-! ## Data model (`app/db/models.py` user rows, `app/db/schemas.py` requests) -/

/-- A row of the users table as used by `auth.py`
(id, name, email, hashed password, profile fields). -/
structure UserModel where
  id : Nat
  name : String
  email : String
  password : String
  bio : String
  location : String
  job_title : String
  deriving DecidableEq, BEq

/-- `POST /login` request body. -/
structure UserLoginRequest where
  email : String
  password : String
  deriving DecidableEq

/-- `POST /sign-up` request body. -/
structure UserSignupRequest where
  name : String
  email : String
  password : String
  bio : String
  location : String
  job_title : String
  deriving DecidableEq

/-- Modelled from the spec: `app/core/hashing.py` is not in the sources;
the spec describes the Password Hasher only as an opaque capability
`hash(plaintext) -> digest`.  We tag digests so that `verify` recognizes
exactly the digest of the hashed plaintext. -/
def hash_password (plaintext : String) : String :=
  "bcrypt$" ++ plaintext

/-- Modelled from the spec: the Password Hasher's
`verify(plaintext, digest) -> bool`. -/
def verify_password (plaintext digest : String) : Bool :=
  digest == hash_password plaintext

/-- A FastAPI `HTTPException` as raised by the handlers: a status code, a
detail message, and optional headers. -/
structure HTTPExc where
  status_code : Nat
  detail : String
  headers : Option (List (String × String)) := none
  deriving DecidableEq

/-- `auth.py` `get_current_user`: the `credentials_exception` raised on
every token-validation failure. -/
def credentials_exception : HTTPExc :=
  { status_code := 401
    detail := "Could not validate credentials"
    headers := some [("WWW-Authenticate", "Bearer")] }

/-! ## Token verification (`get_current_user`, lines 93–124 of `auth.py`) -/

/-- The spec's internal failure taxonomy for token verification:
`Malformed` (bad signature / encoding / algorithm / expired),
`MissingSubject` (decodes but no `sub` claim),
`SubjectNotFound` (the `sub` claim resolves to no stored user). -/
inductive AuthFailure where
  | malformed
  | missingSubject
  | subjectNotFound
  deriving DecidableEq, BEq

/-- The token-verification portion of `get_current_user` (lines 100–106):
`payload = jwt.decode(token, SECRET_KEY, algorithms=[ALGORITHM])` — any
`JWTError` is the `Malformed` kind — then `user_id = payload.get("sub")`,
with `None` the `MissingSubject` kind; otherwise the subject claim is
returned unmodified. -/
def verify_token (token : Token) (key alg : String) (now : Nat) :
    Except AuthFailure ClaimVal :=
  match jwt.decode token key alg now with
  | .error _ => .error .malformed
  | .ok payload =>
    match payload.get "sub" with
    | none => .error .missingSubject
    | some user_id => .ok user_id

/-- `get_current_user` with the failure reasons kept apart (the reasons are
distinguished in the source only by which `logger` call runs): token
verification, then `db.query(UserModel).filter(UserModel.id == user_id).first()`,
whose miss is the `SubjectNotFound` kind. -/
def get_current_user_classified (token : Token) (key alg : String) (now : Nat)
    (db : List UserModel) : Except AuthFailure UserModel :=
  match verify_token token key alg now with
  | .error f => .error f
  | .ok user_id =>
    match db.find? (fun u => user_id == .str (toString u.id)) with
    | none => .error .subjectNotFound
    | some user => .ok user

/-- `get_current_user` as the caller observes it: every failure path
raises the same `credentials_exception`. -/
def get_current_user (token : Token) (key alg : String) (now : Nat)
    (db : List UserModel) : Except HTTPExc UserModel :=
  match get_current_user_classified token key alg now db with
  | .error _ => .error credentials_exception
  | .ok user => .ok user

/-! ## `POST /login` and `POST /sign-up` handlers -/

/-- Subject summary returned inside login/signup responses
(`user_details`). -/
structure UserDetails where
  id : Nat
  name : String
  email : String
  deriving DecidableEq

/-- `POST /login` success body. -/
structure LoginResponse where
  status : String
  message : String
  access_token : Token
  token_type : String
  user_details : UserDetails
  deriving DecidableEq

/-- `auth.py` `login(request, db)` evaluated at instant `now` with signing
key and algorithm present: look up the user by email (`.filter(...).first()`);
unknown email raises 404 "User not found"; a failing password check raises
401 "Incorrect password"; otherwise issue a token for `{"sub": str(user.id)}`
and return the success body. -/
def login (request : UserLoginRequest) (db : List UserModel) (now : Nat)
    (key alg : String) : Except HTTPExc LoginResponse :=
  match db.find? (fun u => u.email == request.email) with
  | none => .error { status_code := 404, detail := "User not found" }
  | some user =>
    if ¬ verify_password request.password user.password then
      .error { status_code := 401, detail := "Incorrect password" }
    else
      let token := create_token [("sub", .str (toString user.id))] now key alg
      .ok { status := "success"
            message := "User logged in successfully"
            access_token := token
            token_type := "bearer"
            user_details := ⟨user.id, user.name, user.email⟩ }

/-- `POST /sign-up` success body. -/
structure SignupResponse where
  status : String
  message : String
  user_details : UserDetails
  deriving DecidableEq

/-- `auth.py` `sign_up(request, db)`.  `next_id` is the primary key the
store will assign (observed via `db.refresh(new_user)`);
`commit_integrity_error` is true when `db.commit()` raises
`IntegrityError` (e.g. a concurrent insert violating the unique-email
constraint), in which case the handler calls `db.rollback()` and raises
400.  Returns the handler outcome together with the store contents after
the call. -/
def sign_up (request : UserSignupRequest) (db : List UserModel)
    (next_id : Nat) (commit_integrity_error : Bool) :
    Except HTTPExc SignupResponse × List UserModel :=
  match db.find? (fun u => u.email == request.email) with
  | some _ =>
    (.error { status_code := 400
              detail := "User with this email already registered." }, db)
  | none =>
    let hashed_password := hash_password request.password
    let new_user : UserModel :=
      { id := next_id
        name := request.name
        email := request.email
        password := hashed_password
        bio := request.bio
        location := request.location
        job_title := request.job_title }
    if commit_integrity_error then
      -- except IntegrityError: db.rollback(); raise HTTPException(400, ...)
      (.error { status_code := 400, detail := "Error while creating user" }, db)
    else
      (.ok { status := "success"
             message := "User created successfully"
             user_details := ⟨new_user.id, new_user.name, new_user.email⟩ },
       db ++ [new_user])

/-! ## Database session scoping (`session.py` `get_db` / `get_db_session`) -/

/-- Events on the SQLAlchemy session acquired for one request. -/
inductive DbEvent where
  /-- `db = SessionLocal()` -/
  | sessionOpen
  /-- `db.close()` -/
  | sessionClose
  deriving DecidableEq, BEq

/-- One request handled under the `get_db` dependency
(`db = SessionLocal(); try: yield db; finally: db.close()`).
`body` is the handler's outcome: a normal return, or an exception the
framework throws back into the generator.  On either path the `finally`
clause runs and closes the session; the outcome itself passes through
unchanged.  Returns the session event trace and the outcome. -/
def get_db_run {α : Type} (body : Except HTTPExc α) :
    List DbEvent × Except HTTPExc α :=
  match body with
  | .ok a => ([.sessionOpen, .sessionClose], .ok a)
  | .error e => ([.sessionOpen, .sessionClose], .error e)

/-- One block run under the `get_db_session` context manager of
`session.py`, whose body is identical to `get_db`. -/
def get_db_session_run {α : Type} (body : Except HTTPExc α) :
    List DbEvent × Except HTTPExc α :=
  match body with
  | .ok a => ([.sessionOpen, .sessionClose], .ok a)
  | .error e => ([.sessionOpen, .sessionClose], .error e)

/-! ## Heap model of `create_token`'s dict handling

Python dict variables are references into a heap; `create_token` receives
a reference to the caller's `data` dict.  The heap is a list of dict
cells, addressed by index. -/

/-- The dict heap: cell `a` holds the dict at index `a`. -/
abbrev Heap := List Dict

/-- Read the dict cell at address `a`. -/
def heapRead (h : Heap) (a : Nat) : Dict :=
  h.getD a []

/-- `create_token` at the level of dict references: `to_encode = data.copy()`
allocates a fresh cell holding a copy of the caller's dict;
`to_encode.update({'exp': expiry_date})` mutates the fresh cell in place;
the caller's cell is never written.  Returns the heap after the call and
the token. -/
def create_token_heap (h : Heap) (data : Nat) (now : Nat) (key alg : String) :
    Heap × Token :=
  let to_encode := h.length
  let h1 := h ++ [heapRead h data]
  let expiry_date := now + ACCESS_TOKEN_EXPIRE_MINUTES * 60
  let h2 := h1.set to_encode ((heapRead h1 to_encode).update "exp" (.time expiry_date))
  (h2, jwt.encode (heapRead h2 to_encode) key alg)

/-! ## Helper lemmas -/

/-- Looking up the freshly-updated key yields the new value. -/
theorem Dict.get_update_self (d : Dict) (k : String) (v : ClaimVal) :
    (d.update k v).get k = some v := by
  induction d with
  | nil => simp [Dict.update, Dict.get]
  | cons hd tl ih =>
    by_cases hk : hd.1 = k
    · simp [Dict.update, Dict.get, hk]
    · simp [Dict.update, Dict.get, hk, ih]

/-- Looking up a different key is unaffected by an update. -/
theorem Dict.get_update_of_ne (d : Dict) (k k' : String) (v : ClaimVal)
    (h : k ≠ k') : (d.update k v).get k' = d.get k' := by
  induction d with
  | nil => simp [Dict.update, Dict.get, h]
  | cons hd tl ih =>
    by_cases hk : hd.1 = k
    · simp [Dict.update, Dict.get, hk, h]
    · simp [Dict.update, Dict.get, hk, ih]

/-- Decoding a token issued by `create_token` with the issuing key and
algorithm, strictly after its expiry instant, raises
`ExpiredSignatureError`. -/
theorem decode_create_token_expired (data : Dict) (t now : Nat)
    (key alg : String) (h : t + ACCESS_TOKEN_EXPIRE_MINUTES * 60 < now) :
    jwt.decode (create_token data t key alg) key alg now
      = .error .expiredSignature := by
  simp [create_token, jwt.encode, jwt.decode, Dict.get_update_self, h]

/-! ## Specified properties -/

/-- C4: token issuance sets the encoded absolute expiry timestamp to the
issuance instant plus the fixed 90-minute TTL, for every input claim set. -/
theorem create_token_sets_expiry (data : Dict) (now : Nat) (key alg : String) :
    ∃ p, (create_token data now key alg).payload = some p ∧
      p.get "exp" = some (.time (now + 90 * 60)) :=
  ⟨data.update "exp" (.time (now + 90 * 60)), rfl,
    Dict.get_update_self data "exp" _⟩

/-- C1: issuing a token for a non-empty subject `s` and verifying it at any
instant strictly before its encoded expiry succeeds and yields exactly the
subject that was encoded. -/
theorem verify_roundtrip_before_expiry (s key alg : String) (t now : Nat)
    (hs : s ≠ "") (hnow : now < t + ACCESS_TOKEN_EXPIRE_MINUTES * 60) :
    verify_token (create_token [("sub", .str s)] t key alg) key alg now
      = .ok (.str s) := by
  have h : ¬ (t + ACCESS_TOKEN_EXPIRE_MINUTES * 60 < now) := by omega
  simp [create_token, jwt.encode, jwt.decode, verify_token, Dict.update,
    Dict.get, h]

/-- Witness for C1 at subject `"42"`, issued at 0, verified at 5399 s. -/
theorem verify_roundtrip_before_expiry_witness :
    verify_token (create_token [("sub", ClaimVal.str "42")] 0 "secret" "HS256")
      "secret" "HS256" 5399 = .ok (.str "42") :=
  verify_roundtrip_before_expiry "42" "secret" "HS256" 0 5399 (by decide)
    (by norm_num [ACCESS_TOKEN_EXPIRE_MINUTES])

/-- C3: a token issued at `t` (TTL 90 min), verified strictly after
`t + 90 min`, fails with the `Malformed` kind — the expiry check is part
of the single decode step — and the caller observes the generic
unauthorized outcome. -/
theorem expired_token_is_malformed (data : Dict) (t now : Nat)
    (key alg : String) (db : List UserModel)
    (h : t + ACCESS_TOKEN_EXPIRE_MINUTES * 60 < now) :
    verify_token (create_token data t key alg) key alg now
      = .error .malformed ∧
    get_current_user (create_token data t key alg) key alg now db
      = .error credentials_exception := by
  constructor
  · simp [verify_token, decode_create_token_expired data t now key alg h]
  · simp [get_current_user, get_current_user_classified, verify_token,
      decode_create_token_expired data t now key alg h]

/-- Witness for C3: issued at 0, verified at 5401 s = 90 min + 1 s. -/
theorem expired_token_is_malformed_witness :
    verify_token (create_token [("sub", ClaimVal.str "42")] 0 "secret" "HS256")
        "secret" "HS256" 5401 = .error .malformed ∧
    get_current_user (create_token [("sub", ClaimVal.str "42")] 0 "secret" "HS256")
        "secret" "HS256" 5401 [] = .error credentials_exception :=
  expired_token_is_malformed [("sub", ClaimVal.str "42")] 0 5401 "secret" "HS256" []
    (by norm_num [ACCESS_TOKEN_EXPIRE_MINUTES])

/-- C5: a token that decodes successfully but whose payload has no `sub`
claim is rejected with the `MissingSubject` kind and the caller observes
the generic unauthorized outcome — never success or an anonymous
identity. -/
theorem missing_subject_rejected (tok : Token) (p : Dict) (key alg : String)
    (now : Nat) (db : List UserModel)
    (hdec : jwt.decode tok key alg now = .ok p)
    (hsub : p.get "sub" = none) :
    verify_token tok key alg now = .error .missingSubject ∧
    get_current_user tok key alg now db = .error credentials_exception := by
  constructor
  · simp [verify_token, hdec, hsub]
  · simp [get_current_user, get_current_user_classified, verify_token,
      hdec, hsub]

/-- Witness for C5: a token carrying only an `exp` claim. -/
theorem missing_subject_rejected_witness :
    verify_token (.signed [("exp", ClaimVal.time 100)] "k" "HS256") "k" "HS256" 0
      = .error .missingSubject ∧
    get_current_user (.signed [("exp", ClaimVal.time 100)] "k" "HS256") "k" "HS256" 0 []
      = .error credentials_exception :=
  missing_subject_rejected (.signed [("exp", ClaimVal.time 100)] "k" "HS256")
    [("exp", ClaimVal.time 100)] "k" "HS256" 0 [] rfl rfl

/-- C6: any two verification inputs that fail — in particular for
different internal reasons (`Malformed`, `MissingSubject`,
`SubjectNotFound`) — produce the identical client-visible outcome: the
same unauthorized status and the same generic message, so the failure
kind is not observable to the caller. -/
theorem verification_failures_uniform (t1 t2 : Token) (k1 a1 k2 a2 : String)
    (n1 n2 : Nat) (db1 db2 : List UserModel) (f1 f2 : AuthFailure)
    (h1 : get_current_user_classified t1 k1 a1 n1 db1 = .error f1)
    (h2 : get_current_user_classified t2 k2 a2 n2 db2 = .error f2) :
    get_current_user t1 k1 a1 n1 db1 = .error credentials_exception ∧
    get_current_user t2 k2 a2 n2 db2 = .error credentials_exception ∧
    get_current_user t1 k1 a1 n1 db1 = get_current_user t2 k2 a2 n2 db2 := by
  refine ⟨?_, ?_, ?_⟩ <;> simp [get_current_user, h1, h2]

/-- Witness for C6: a garbage token (`Malformed`) versus a decodable token
with no `sub` claim (`MissingSubject`) — identical outcomes. -/
theorem verification_failures_uniform_witness :
    get_current_user (.garbage "xx") "k" "HS256" 0 []
      = .error credentials_exception ∧
    get_current_user (.signed [("exp", ClaimVal.time 100)] "k" "HS256") "k" "HS256" 0 []
      = .error credentials_exception ∧
    get_current_user (.garbage "xx") "k" "HS256" 0 []
      = get_current_user (.signed [("exp", ClaimVal.time 100)] "k" "HS256") "k" "HS256" 0 [] :=
  verification_failures_uniform (.garbage "xx")
    (.signed [("exp", ClaimVal.time 100)] "k" "HS256") "k" "HS256" "k" "HS256"
    0 0 [] [] .malformed .missingSubject rfl rfl

/-- An environment with `DATABASE_URL` set but no `SECRET_KEY` and no
`ALGORITHM`. -/
def env_no_secret : Env :=
  fun k => if k = "DATABASE_URL" then some "postgresql://localhost/app" else none

/-- C2 counterexample: with `SECRET_KEY` absent (and `DATABASE_URL`
present) process startup SUCCEEDS — `auth.py` merely binds
`SECRET_KEY = getenv('SECRET_KEY') = None` — and token issuance then
encounters the missing key at call time as a `JWSError`. -/
theorem startup_succeeds_without_secret_key :
    env_no_secret "SECRET_KEY" = none ∧
    app_startup env_no_secret = .ok ⟨"postgresql://localhost/app", none, none⟩ ∧
    create_token_env [("sub", ClaimVal.str "1")] 0 none none
      = .error .joseKeyError :=
  ⟨rfl, rfl, rfl⟩

/-- C2 amended: startup aborts exactly on a missing (or empty)
`DATABASE_URL`; a missing `SECRET_KEY` does not abort startup, and token
issuance with the missing key fails at call time instead. -/
theorem startup_missing_secret_key_behavior (env : Env) (url : String)
    (hdb : env "DATABASE_URL" = some url) (hurl : url ≠ "")
    (hsk : env "SECRET_KEY" = none) :
    app_startup env = .ok ⟨url, none, env "ALGORITHM"⟩ ∧
    (app_startup (fun k => if k = "DATABASE_URL" then none else env k)).isOk
      = false ∧
    ∀ data now alg, create_token_env data now (env "SECRET_KEY") alg
      = .error .joseKeyError := by
  refine ⟨?_, rfl, ?_⟩
  · simp [app_startup, config_startup, hdb, hurl, hsk]
  · intro data now alg
    rw [hsk]
    cases alg <;> rfl

/-- Witness for the amended C2 at the concrete environment
`env_no_secret`. -/
theorem startup_missing_secret_key_behavior_witness :
    app_startup env_no_secret = .ok ⟨"postgresql://localhost/app", none, none⟩ ∧
    create_token_env [("sub", ClaimVal.str "1")] 0 (env_no_secret "SECRET_KEY")
      (some "HS256") = .error .joseKeyError :=
  ⟨((startup_missing_secret_key_behavior env_no_secret "postgresql://localhost/app"
      rfl (by decide) rfl).1 : _),
   (startup_missing_secret_key_behavior env_no_secret "postgresql://localhost/app"
      rfl (by decide) rfl).2.2 [("sub", ClaimVal.str "1")] 0 (some "HS256")⟩

/-- C7: signup with an email already present creates no second record and
reports a bad-request duplicate failure, leaving the store unchanged —
both when the duplicate is caught by the pre-query and when the commit
raises `IntegrityError`, which is rolled back. -/
theorem signup_duplicate_store_unchanged (req : UserSignupRequest)
    (db : List UserModel) (next_id : Nat) (b : Bool) :
    ((∃ u ∈ db, u.email = req.email) →
      sign_up req db next_id b
        = (.error { status_code := 400
                    detail := "User with this email already registered." }, db)) ∧
    ((sign_up req db next_id true).2 = db ∧
      ∃ e, (sign_up req db next_id true).1 = .error e ∧ e.status_code = 400) := by
  constructor
  · rintro ⟨u, hu, he⟩
    have hfind : (db.find? (fun v => v.email == req.email)).isSome := by
      rw [List.find?_isSome]
      exact ⟨u, hu, by simpa using he⟩
    match hf : db.find? (fun v => v.email == req.email) with
    | none => rw [hf] at hfind; simp at hfind
    | some v => simp [sign_up, hf]
  · match hf : db.find? (fun v => v.email == req.email) with
    | none =>
      refine ⟨?_, ⟨{ status_code := 400, detail := "Error while creating user" }, ?_, rfl⟩⟩ <;>
        simp [sign_up, hf]
    | some v =>
      refine ⟨?_, ⟨{ status_code := 400
                     detail := "User with this email already registered." }, ?_, rfl⟩⟩ <;>
        simp [sign_up, hf]

/-- A concrete stored user for the handler witnesses. -/
def alice : UserModel :=
  { id := 1, name := "Alice", email := "alice@example.com"
    password := hash_password "alicepw", bio := "", location := ""
    job_title := "" }

/-- Witness for C7: re-signing up Alice's email is rejected with the store
unchanged, and an `IntegrityError` commit on a fresh email also leaves the
store unchanged with a 400. -/
theorem signup_duplicate_store_unchanged_witness :
    sign_up ⟨"Alice2", "alice@example.com", "pw", "", "", ""⟩ [alice] 2 false
      = (.error { status_code := 400
                  detail := "User with this email already registered." }, [alice]) ∧
    (sign_up ⟨"Bob", "bob@example.com", "pw", "", "", ""⟩ [alice] 2 true).2
      = [alice] :=
  ⟨(signup_duplicate_store_unchanged ⟨"Alice2", "alice@example.com", "pw", "", "", ""⟩
      [alice] 2 false).1 ⟨alice, by simp, rfl⟩,
   (signup_duplicate_store_unchanged ⟨"Bob", "bob@example.com", "pw", "", "", ""⟩
      [alice] 2 true).2.1⟩

/-- C8: login returns not-found for an unknown email, unauthorized for a
failing password check, and otherwise a success body carrying an access
token, `token_type = "bearer"` and the subject summary. -/
theorem login_outcomes (req : UserLoginRequest) (db : List UserModel)
    (now : Nat) (key alg : String) :
    (db.find? (fun u => u.email == req.email) = none →
      login req db now key alg
        = .error { status_code := 404, detail := "User not found" }) ∧
    (∀ u, db.find? (fun u => u.email == req.email) = some u →
      verify_password req.password u.password = false →
      login req db now key alg
        = .error { status_code := 401, detail := "Incorrect password" }) ∧
    (∀ u, db.find? (fun u => u.email == req.email) = some u →
      verify_password req.password u.password = true →
      login req db now key alg
        = .ok { status := "success"
                message := "User logged in successfully"
                access_token :=
                  create_token [("sub", .str (toString u.id))] now key alg
                token_type := "bearer"
                user_details := ⟨u.id, u.name, u.email⟩ }) := by
  refine ⟨fun hf => ?_, fun u hf hv => ?_, fun u hf hv => ?_⟩
  · simp [login, hf]
  · simp [login, hf, hv]
  · simp [login, hf, hv]

/-- Witness for C8: the three login outcomes at a one-user store. -/
theorem login_outcomes_witness :
    login ⟨"bob@example.com", "alicepw"⟩ [alice] 0 "secret" "HS256"
      = .error { status_code := 404, detail := "User not found" } ∧
    login ⟨"alice@example.com", "wrong"⟩ [alice] 0 "secret" "HS256"
      = .error { status_code := 401, detail := "Incorrect password" } ∧
    login ⟨"alice@example.com", "alicepw"⟩ [alice] 0 "secret" "HS256"
      = .ok { status := "success"
              message := "User logged in successfully"
              access_token :=
                create_token [("sub", .str (toString alice.id))] 0 "secret" "HS256"
              token_type := "bearer"
              user_details := ⟨alice.id, alice.name, alice.email⟩ } :=
  ⟨(login_outcomes ⟨"bob@example.com", "alicepw"⟩ [alice] 0 "secret" "HS256").1
      (by simp [alice]),
   (login_outcomes ⟨"alice@example.com", "wrong"⟩ [alice] 0 "secret" "HS256").2.1
      alice (by simp [alice]) (by simp [verify_password, alice, hash_password]),
   (login_outcomes ⟨"alice@example.com", "alicepw"⟩ [alice] 0 "secret" "HS256").2.2
      alice (by simp [alice]) (by simp [verify_password, alice, hash_password])⟩

/-- C9: every request-scoped database session is opened once and released
exactly once, whether the handler returns normally or raises, for both
`get_db` and `get_db_session`; the handler's outcome passes through
unchanged. -/
theorem db_session_released_once {α : Type} (body : Except HTTPExc α) :
    ((get_db_run body).1.count .sessionClose = 1 ∧
     (get_db_run body).1.count .sessionOpen = 1 ∧
     (get_db_run body).2 = body) ∧
    ((get_db_session_run body).1.count .sessionClose = 1 ∧
     (get_db_session_run body).1.count .sessionOpen = 1 ∧
     (get_db_session_run body).2 = body) := by
  cases body <;> exact ⟨⟨rfl, rfl, rfl⟩, rfl, rfl, rfl⟩

/-- C10: `create_token` does not mutate the caller's dict — it updates a
fresh copy, so the cell the caller holds a reference to reads back
unchanged after the call. -/
theorem create_token_heap_preserves_caller (h : Heap) (data : Nat)
    (now : Nat) (key alg : String) (hlt : data < h.length) :
    heapRead (create_token_heap h data now key alg).1 data
      = heapRead h data := by
  simp only [create_token_heap, heapRead]
  rw [List.getD_eq_getElem?_getD, List.getD_eq_getElem?_getD,
    List.getElem?_set_ne (by omega), List.getElem?_append_left hlt]

/-- Witness for C10 at a one-cell heap. -/
theorem create_token_heap_preserves_caller_witness :
    heapRead (create_token_heap [[("sub", ClaimVal.str "1")]] 0 7 "k" "HS256").1 0
      = [("sub", ClaimVal.str "1")] :=
  create_token_heap_preserves_caller [[("sub", ClaimVal.str "1")]] 0 7 "k" "HS256"
    (by decide)
